import Mathlib

set_option maxHeartbeats 1000000

/-
Shallow embedding of the VANET simulator (Rust sources in src/).

Modelling conventions:
* u32 / usize values are modelled as Nat.  The simulator's parameters are
  small (grid dimensions, ranges, round counts), so u32 wrap-around is never
  reached in the scenarios the claims quantify over; where a u32 subtraction
  can underflow (a Rust panic in debug builds) this is noted at the definition.
* f32 / f64 values are modelled by F32, an exact fraction type (integer
  numerator over natural denominator, no normalization).  Every float the
  detector manipulates is produced from small integer counts by +, -, *, /
  and the literal 1.4826, so exact fractions model the intended real
  arithmetic; float rounding is far below every tolerance the claims use.
* HashMap<u32, V> is modelled as an association list in insertion order;
  all keys inserted are distinct in every reachable state.
* Randomness (rand::...) is modelled by explicit oracle arguments.
* A Rust panic! / unwrap failure / index-out-of-bounds / NaN-comparison
  abort is modelled as Option.none.
-/

structure Coordinate where
  x : Nat
  y : Nat
deriving DecidableEq, Repr, Inhabited

structure SquareCoords where
  x1 : Nat
  y1 : Nat
  x2 : Nat
  y2 : Nat
deriving DecidableEq, Repr, Inhabited

inductive NodeType where
  | OBU
  | RSU
deriving DecidableEq, Repr, Inhabited

structure Message where
  origin_id : Nat
  origin_type : NodeType
  coordinate : Coordinate
  phy_coord : Coordinate
  phy_range : Nat
  phy_area : SquareCoords
deriving DecidableEq, Repr, Inhabited

structure NeighborEntry where
  id : Nat
  coordinate : Coordinate
deriving DecidableEq, Repr, Inhabited

/-- Squared Euclidean distance between two cell coordinates (over ℤ, as the
Rust code computes `(x1 as i32 - x2 as i32).pow(2) + ...`). -/
def distSq (a b : Coordinate) : Int :=
  ((a.x : Int) - (b.x : Int)) ^ 2 + ((a.y : Int) - (b.y : Int)) ^ 2

/-- comms.rs, Ether::is_transmission_possible: the code tests
`sqrt(dx^2+dy^2) <= range` in f64.  For integer inputs of simulation size the
correctly rounded square root satisfies this exactly when
`dx^2+dy^2 <= range^2`, which is the form embedded here. -/
def Ether.is_transmission_possible (txc : Coordinate) (range : Nat)
    (rxc : Coordinate) : Bool :=
  distSq txc rxc ≤ (range : Int) ^ 2

/-- Exact-fraction model of the f32/f64 values of the detector: an integer
numerator over a natural denominator, never normalized.  All comparisons are
by cross-multiplication, so they compare the represented values. -/
structure F32 where
  num : Int
  den : Nat
deriving DecidableEq, Repr, Inhabited

def F32.ofNat (n : Nat) : F32 := ⟨n, 1⟩

def F32.zero : F32 := ⟨0, 1⟩

def F32.add (a b : F32) : F32 :=
  ⟨a.num * b.den + b.num * a.den, a.den * b.den⟩

def F32.sub (a b : F32) : F32 :=
  ⟨a.num * b.den - b.num * a.den, a.den * b.den⟩

def F32.mul (a b : F32) : F32 :=
  ⟨a.num * b.num, a.den * b.den⟩

/-- Division (sign-correct in general; every divisor the source uses is a
nonnegative count). -/
def F32.div (a b : F32) : F32 :=
  ⟨a.num * b.den * b.num.sign, a.den * b.num.natAbs⟩

def F32.abs (a : F32) : F32 := ⟨|a.num|, a.den⟩

def F32.ble (a b : F32) : Bool :=
  decide (a.num * (b.den : Int) ≤ b.num * (a.den : Int))

def F32.blt (a b : F32) : Bool :=
  decide (a.num * (b.den : Int) < b.num * (a.den : Int))

/-- Value equality of two fractions (their representations may differ). -/
def F32.beq (a b : F32) : Bool :=
  decide (a.num * (b.den : Int) = b.num * (a.den : Int))

structure CellState where
  id : Nat
  is_street : Bool
  obu_id : Option Nat
  next_coordinates : List Coordinate
deriving DecidableEq, Repr, Inhabited

structure GridParams where
  blocks_per_street : Nat
  block_size : Nat
deriving Repr

structure Grid where
  block_size : Nat
  blocks_per_street : Nat
  cells : List (List CellState)
  dimension : Nat
  street_cells : Nat
deriving Repr, Inhabited

/-- grid.rs, Grid::new: dimension = blocks*size + blocks + 1; cell (i,j) is a
street cell iff i or j is a multiple of (block_size+1); ids are assigned by a
row-major counter. -/
def Grid.new (params : GridParams) : Grid :=
  let block_size := params.block_size
  let blocks_per_street := params.blocks_per_street
  let dimension := blocks_per_street * block_size + blocks_per_street + 1
  let street_cells := dimension * dimension -
    blocks_per_street * blocks_per_street * block_size * block_size
  let cells := (List.range dimension).map (fun i =>
    (List.range dimension).map (fun j =>
      { id := i * dimension + j
        is_street := i % (block_size + 1) == 0 || j % (block_size + 1) == 0
        obu_id := none
        next_coordinates := [] }))
  { block_size := block_size
    blocks_per_street := blocks_per_street
    cells := cells
    dimension := dimension
    street_cells := street_cells }

/-- Cell read (Rust indexes `self.cells[x][y]`, a panic when out of bounds;
claims only exercise in-bounds accesses, where getD's default is never used). -/
def Grid.getCell (g : Grid) (x y : Nat) : CellState :=
  (g.cells.getD x []).getD y default

def Grid.setCell (g : Grid) (x y : Nat) (c : CellState) : Grid :=
  { g with cells := g.cells.set x ((g.cells.getD x []).set y c) }

/-- grid.rs, Grid::get_cell_state (returns a clone of the cell). -/
def Grid.get_cell_state (g : Grid) (c : Coordinate) : CellState :=
  g.getCell c.x c.y

inductive FlowDirection where
  | FromZero
  | ToZero
deriving DecidableEq, Repr

/-- grid.rs, Grid::is_street (row/column index test). -/
def Grid.is_street (g : Grid) (i : Nat) : Bool :=
  i % (g.block_size + 1) == 0

/-- grid.rs, Grid::get_flow_direction. -/
def Grid.get_flow_direction (_g : Grid) (street_id : Nat) (is_column : Bool) :
    FlowDirection :=
  if street_id % 2 == 0 then
    if is_column then FlowDirection.ToZero else FlowDirection.FromZero
  else
    if is_column then FlowDirection.FromZero else FlowDirection.ToZero

/-- grid.rs, Grid::calculate_next_coordinates. -/
def Grid.calculate_next_coordinates (g : Grid) (c : Coordinate) :
    List Coordinate :=
  let fromColumn : List Coordinate :=
    if g.is_street c.x then
      match g.get_flow_direction c.x true with
      | FlowDirection.FromZero =>
        if c.y < g.dimension - 1 then [⟨c.x, c.y + 1⟩] else []
      | FlowDirection.ToZero =>
        if c.y > 0 then [⟨c.x, c.y - 1⟩] else []
    else []
  let fromRow : List Coordinate :=
    if g.is_street c.y then
      match g.get_flow_direction c.y false with
      | FlowDirection.FromZero =>
        if c.x < g.dimension - 1 then [⟨c.x + 1, c.y⟩] else []
      | FlowDirection.ToZero =>
        if c.x > 0 then [⟨c.x - 1, c.y⟩] else []
    else []
  fromColumn ++ fromRow

/-- grid.rs, Grid::update_next_coordinates: recompute successors of every
street cell (the computation only reads immutable data, so the in-place loop
equals this pure per-cell map). -/
def Grid.update_next_coordinates (g : Grid) : Grid :=
  { g with cells := g.cells.mapIdx (fun i row => row.mapIdx (fun j cell =>
      if cell.is_street then
        { cell with next_coordinates := g.calculate_next_coordinates ⟨i, j⟩ }
      else cell)) }

/-- grid.rs, Grid::get_next_coordinates, including the lazy first-use
computation (checks cell (0,0)). -/
def Grid.get_next_coordinates (g : Grid) (c : Coordinate) :
    List Coordinate × Grid :=
  let g := if (g.getCell 0 0).next_coordinates.length = 0 then
      g.update_next_coordinates else g
  ((g.getCell c.x c.y).next_coordinates, g)

/-- grid.rs, Grid::get_possible_moves: successors with an empty occupant slot. -/
def Grid.get_possible_moves (g : Grid) (c : Coordinate) :
    List Coordinate × Grid :=
  let p := g.get_next_coordinates c
  (p.1.filter (fun nc => (p.2.get_cell_state nc).obu_id = none),
   p.2)

/-- grid.rs, Grid::move_obu: clone both cells, move the occupant id, write the
current cell back first and the next cell second. -/
def Grid.move_obu (g : Grid) (cur nxt : Coordinate) : Grid :=
  let c := g.get_cell_state cur
  let n := g.get_cell_state nxt
  let n := { n with obu_id := c.obu_id }
  let c := { c with obu_id := none }
  let g := g.setCell cur.x cur.y c
  g.setCell nxt.x nxt.y n

/-- grid.rs, Grid::get_square_cords.  `range - 1` is a u32 subtraction, so the
code requires range ≥ 1 (range = 0 would panic in a debug build); claims only
use range ≥ 1. -/
def Grid.get_square_cords (g : Grid) (c : Coordinate) (range : Nat) :
    SquareCoords :=
  let r := range - 1
  let x1 := if (c.x : Int) - (r : Int) > 0 then c.x - r else 0
  let y1 := if (c.y : Int) - (r : Int) > 0 then c.y - r else 0
  let x2 := min (g.dimension - 1) (c.x + r)
  let y2 := min (g.dimension - 1) (c.y + r)
  { x1 := x1, y1 := y1, x2 := x2, y2 := y2 }

/-- grid.rs, Grid::check_overlaping_squares. -/
def Grid.check_overlaping_squares (_g : Grid) (s1 s2 : SquareCoords) : Bool :=
  !(s1.x1 > s2.x2 || s1.x2 < s2.x1 || s1.y1 > s2.y2 || s1.y2 < s2.y1)

/-- grid.rs, Grid::insert_obu, inner recursion over street indices
(street_id = 0, bs+1, 2(bs+1), ... while < dimension).  Fuel bounds the
number of visited street indices; `dimension + 1` visits them all. -/
def Grid.insert_obu_go (g : Grid) (obu_id : Nat) :
    Nat → Nat → Option Coordinate × Grid
  | 0, _ => (none, g)
  | fuel + 1, street_id =>
    if street_id < g.dimension then
      if g.is_street street_id then
        let start : Nat := match g.get_flow_direction street_id true with
          | FlowDirection.FromZero => 0
          | FlowDirection.ToZero => g.dimension - 1
        if (g.getCell street_id start).obu_id = none then
          (some ⟨street_id, start⟩,
           g.setCell street_id start
             { g.getCell street_id start with obu_id := some obu_id })
        else
          let start2 : Nat := match g.get_flow_direction street_id false with
            | FlowDirection.FromZero => 0
            | FlowDirection.ToZero => g.dimension - 1
          if (g.getCell start2 street_id).obu_id = none then
            (some ⟨start2, street_id⟩,
             g.setCell start2 street_id
               { g.getCell start2 street_id with obu_id := some obu_id })
          else
            g.insert_obu_go obu_id fuel (street_id + g.block_size + 1)
      else
        g.insert_obu_go obu_id fuel (street_id + g.block_size + 1)
    else (none, g)

def Grid.insert_obu (g : Grid) (obu_id : Nat) : Option Coordinate × Grid :=
  g.insert_obu_go obu_id (g.dimension + 1) 0

structure OnBoardUnit where
  id : Nat
  coordinate : Coordinate
  tx_range : Nat
  tx_failure_rate : F32
  gps_failure_rate : F32
  is_faulty : Bool
  neighbors : List NeighborEntry
  grid_dimension : Nat
deriving DecidableEq, Repr, Inhabited

/-- obu.rs, OnBoardUnit::get_message.  The two `Simulator::random_event`
trials and the `get_random_coordinate_outside_range` draw are randomness;
they are passed in as oracle values `txFail`, `gpsFail`, `spoof`. -/
def OnBoardUnit.get_message (obu : OnBoardUnit) (txFail gpsFail : Bool)
    (spoof : Coordinate) : Option Message :=
  if txFail then none
  else
    some { origin_id := obu.id
           origin_type := NodeType.OBU
           coordinate := if gpsFail then spoof else obu.coordinate
           phy_coord := obu.coordinate
           phy_range := obu.tx_range
           phy_area := ⟨0, 0, 0, 0⟩ }

/-- obu.rs, OnBoardUnit::receive_message: OBU-origin messages from other
nodes become neighbor entries carrying the reported coordinate; own messages
and RSU-origin messages are ignored. -/
def OnBoardUnit.receive_message (obu : OnBoardUnit) (m : Message) :
    OnBoardUnit :=
  match m.origin_type with
  | NodeType.OBU =>
    if m.origin_id == obu.id then obu
    else { obu with neighbors := obu.neighbors ++ [⟨m.origin_id, m.coordinate⟩] }
  | NodeType.RSU => obu

def OnBoardUnit.clear_neighbors (obu : OnBoardUnit) : OnBoardUnit :=
  { obu with neighbors := [] }

structure RoadSideUnit where
  id : Nat
  coordinate : Coordinate
  neighbors : List NeighborEntry
deriving DecidableEq, Repr, Inhabited

/-- rsu.rs, RoadSideUnit::get_message: RSUs never emit messages. -/
def RoadSideUnit.get_message (_rsu : RoadSideUnit) : Option Message :=
  none

/-- rsu.rs, RoadSideUnit::receive_message. -/
def RoadSideUnit.receive_message (rsu : RoadSideUnit) (m : Message) :
    RoadSideUnit :=
  match m.origin_type with
  | NodeType.OBU =>
    { rsu with neighbors := rsu.neighbors ++ [⟨m.origin_id, m.coordinate⟩] }
  | NodeType.RSU => rsu

def RoadSideUnit.clear_neighbors (rsu : RoadSideUnit) : RoadSideUnit :=
  { rsu with neighbors := [] }

structure ObuManagerParams where
  max_obus : Nat
  comms_range : Nat
  tx_base_failure_rate : F32
  tx_faulty_obu_failure_rate : F32
  gps_failure_rate : F32
  gps_faulty_obu_failure_rate : F32
  faulty_obus : Nat
deriving Repr

structure ObuManagerStats where
  normal_obu_tx_count : Nat
  normal_obu_tx_error_count : Nat
  faulty_obu_tx_count : Nat
  faulty_obu_tx_error_count : Nat
  total_tx_count : Nat
  total_tx_error_count : Nat
deriving DecidableEq, Repr, Inhabited

structure OnBoardUnitManager where
  next_id : Nat
  max_obus : Nat
  comms_range : Nat
  tx_base_failure_rate : F32
  tx_faulty_obu_failure_rate : F32
  gps_failure_rate : F32
  gps_faulty_obu_failure_rate : F32
  faulty_obus : Nat
  faulty_obus_added : Nat
  obus : List OnBoardUnit
  stats : ObuManagerStats
  current_round : Nat
  grid_dimension : Nat
deriving Repr, Inhabited

/-- obu_manager.rs, OnBoardUnitManager::new. -/
def OnBoardUnitManager.new (params : ObuManagerParams) (grid_dimension : Nat) :
    OnBoardUnitManager :=
  { next_id := 0
    max_obus := params.max_obus
    comms_range := params.comms_range
    tx_base_failure_rate := params.tx_base_failure_rate
    tx_faulty_obu_failure_rate := params.tx_faulty_obu_failure_rate
    gps_failure_rate := params.gps_failure_rate
    gps_faulty_obu_failure_rate := params.gps_faulty_obu_failure_rate
    faulty_obus := params.faulty_obus
    faulty_obus_added := 0
    obus := []
    stats := ⟨0, 0, 0, 0, 0, 0⟩
    current_round := 0
    grid_dimension := grid_dimension }

/-- obu_manager.rs, OnBoardUnitManager::create_obu.  The HashMap insert at the
fresh key `next_id` is modelled as appending to the list, so list order is
creation order.  `max_obus / faulty_obus` is u32 division; the guard
`faulty_obus > 0` keeps the divisor of the modulus nonzero whenever
faulty_obus ≤ max_obus (the configurations the claims cover). -/
def OnBoardUnitManager.create_obu (m : OnBoardUnitManager) (c : Coordinate) :
    Option Nat × OnBoardUnitManager :=
  let id := m.next_id
  if m.obus.length ≥ m.max_obus then (none, m)
  else
    let mk := fun (txr gpsr : F32) (fl : Bool) =>
      ({ id := id
         coordinate := c
         tx_range := m.comms_range
         tx_failure_rate := txr
         gps_failure_rate := gpsr
         is_faulty := fl
         neighbors := []
         grid_dimension := m.grid_dimension } : OnBoardUnit)
    if m.faulty_obus > 0 && m.faulty_obus_added < m.faulty_obus
        && (m.obus.length + 1) % (m.max_obus / m.faulty_obus) == 0 then
      (some id,
       { m with obus := m.obus ++ [mk m.tx_faulty_obu_failure_rate
                                      m.gps_faulty_obu_failure_rate true]
                next_id := id + 1
                faulty_obus_added := m.faulty_obus_added + 1 })
    else
      (some id,
       { m with obus := m.obus ++ [mk m.tx_base_failure_rate
                                      m.gps_failure_rate false]
                next_id := id + 1 })

/-- Oracle for the explicit randomness of one simulation round: the two
failure trials and the spoofed coordinate of OnBoardUnit::get_message, and
the uniform move choice of Simulator::do_obus_moves, all keyed by OBU id. -/
structure SimOracle where
  txFail : Nat → Bool
  gpsFail : Nat → Bool
  spoof : Nat → Coordinate
  moveChoice : Nat → Nat

/-- obu_manager.rs, the loop body of OnBoardUnitManager::collect_messages:
update the transmission statistics and append the OBU's message, if any. -/
def collectStep (o : SimOracle) (acc : List Message × ObuManagerStats)
    (obu : OnBoardUnit) : List Message × ObuManagerStats :=
  let st := acc.2
  let st := { st with total_tx_count := st.total_tx_count + 1 }
  let st := if obu.is_faulty then
      { st with faulty_obu_tx_count := st.faulty_obu_tx_count + 1 }
    else
      { st with normal_obu_tx_count := st.normal_obu_tx_count + 1 }
  match obu.get_message (o.txFail obu.id) (o.gpsFail obu.id)
      (o.spoof obu.id) with
  | some msg => (acc.1 ++ [msg], st)
  | none =>
    let st := { st with total_tx_error_count := st.total_tx_error_count + 1 }
    let st := if obu.is_faulty then
        { st with
            faulty_obu_tx_error_count := st.faulty_obu_tx_error_count + 1 }
      else
        { st with
            normal_obu_tx_error_count := st.normal_obu_tx_error_count + 1 }
    (acc.1, st)

/-- obu_manager.rs, OnBoardUnitManager::collect_messages. -/
def OnBoardUnitManager.collect_messages (m : OnBoardUnitManager)
    (o : SimOracle) : List Message × OnBoardUnitManager :=
  let r := m.obus.foldl (collectStep o) ([], m.stats)
  (r.1, { m with stats := r.2 })

/-- obu_manager.rs, OnBoardUnitManager::deliver_messages: per OBU, clear the
neighbor list, then accept every message whose sender's physical coordinate
is within its physical range of the OBU's current coordinate (the exact
Euclidean test of Ether::is_transmission_possible). -/
def OnBoardUnitManager.deliver_messages (m : OnBoardUnitManager)
    (messages : List Message) : OnBoardUnitManager :=
  { m with obus := m.obus.map (fun obu =>
      messages.foldl (fun o msg =>
        if Ether.is_transmission_possible msg.phy_coord msg.phy_range
            o.coordinate then
          o.receive_message msg
        else o) obu.clear_neighbors) }

structure RsuManagerParams where
  tx_range : Nat
  rx_range : Nat
  detect_obu_tx_failure : Bool
  detect_obu_gps_failure : Bool
deriving Repr

/-- rsu_manager.rs, ObuData: one sighting of an OBU (its reported coordinate
and the id of the observing RSU). -/
structure ObuData where
  coordinate : Coordinate
  rsu_id : Nat
deriving DecidableEq, Repr, Inhabited

structure RoadSideUnitManager where
  next_id : Nat
  tx_range : Nat
  rx_range : Nat
  rsus : List RoadSideUnit
  current_round : Nat
  obu_observations : List (List (Nat × List ObuData))
  detect_obu_tx_failure : Bool
  detect_obu_gps_failure : Bool
deriving Repr, Inhabited

/-- rsu_manager.rs, RoadSideUnitManager::new. -/
def RoadSideUnitManager.new (params : RsuManagerParams) :
    RoadSideUnitManager :=
  { next_id := 0
    tx_range := params.tx_range
    rx_range := params.rx_range
    rsus := []
    current_round := 0
    obu_observations := []
    detect_obu_tx_failure := params.detect_obu_tx_failure
    detect_obu_gps_failure := params.detect_obu_gps_failure }

/-- rsu_manager.rs, RoadSideUnitManager::create_rsu (returns the new id). -/
def RoadSideUnitManager.create_rsu (m : RoadSideUnitManager)
    (c : Coordinate) : Nat × RoadSideUnitManager :=
  (m.next_id,
   { m with rsus := m.rsus ++ [⟨m.next_id, c, []⟩], next_id := m.next_id + 1 })

def RoadSideUnitManager.set_current_round (m : RoadSideUnitManager)
    (round : Nat) : RoadSideUnitManager :=
  { m with current_round := round }

def OnBoardUnitManager.set_current_round (m : OnBoardUnitManager)
    (round : Nat) : OnBoardUnitManager :=
  { m with current_round := round }

/-- Association-list insert of rsu_manager.rs update_obu_observations: push
the sighting onto an existing entry for the OBU id, or create a new entry. -/
def addObs (rd : List (Nat × List ObuData)) (id : Nat) (d : ObuData) :
    List (Nat × List ObuData) :=
  if rd.any (fun p => p.1 == id) then
    rd.map (fun p => if p.1 == id then (p.1, p.2 ++ [d]) else p)
  else
    rd ++ [(id, [d])]

/-- rsu_manager.rs, the round_data construction inside
update_obu_observations: every neighbor sighting of every RSU, in iteration
order. -/
def roundDataOf (rsus : List RoadSideUnit) : List (Nat × List ObuData) :=
  rsus.foldl (fun rd rsu =>
    rsu.neighbors.foldl (fun rd neighbor =>
      addObs rd neighbor.id ⟨neighbor.coordinate, rsu.id⟩) rd) []

/-- rsu_manager.rs, RoadSideUnitManager::update_obu_observations: panics
(modelled as none) when the observation history already has length
current_round + 1, otherwise appends this round's data. -/
def RoadSideUnitManager.update_obu_observations (m : RoadSideUnitManager) :
    Option RoadSideUnitManager :=
  if m.obu_observations.length == m.current_round + 1 then none
  else some { m with obu_observations :=
                m.obu_observations ++ [roundDataOf m.rsus] }

/-- rsu_manager.rs, RoadSideUnitManager::deliver_messages: per RSU clear the
neighbors and accept every message passing the exact-distance test, then
update the observation history (which can panic). -/
def RoadSideUnitManager.deliver_messages (m : RoadSideUnitManager)
    (messages : List Message) : Option RoadSideUnitManager :=
  let m := { m with rsus := m.rsus.map (fun (rsu : RoadSideUnit) =>
      messages.foldl (fun (r : RoadSideUnit) (msg : Message) =>
        if Ether.is_transmission_possible msg.phy_coord msg.phy_range
            r.coordinate then
          r.receive_message msg
        else r) rsu.clear_neighbors) }
  m.update_obu_observations

structure ObuErrorStats where
  tx_count : Nat
  tx_error_count : Nat
  tx_error_rate : F32
  gps_error_count : Nat
  gps_error_rate : F32
  first_seen : Nat
deriving DecidableEq, Repr, Inhabited

def statsLookup (acc : List (Nat × ObuErrorStats)) (id : Nat) :
    Option ObuErrorStats :=
  (acc.find? (fun p => p.1 == id)).map (fun p => p.2)

/-- One sighting is conclusive of a GPS error when the observing RSU (looked
up in the manager's RSU map) is farther than rx_range+3 from the reported
coordinate.  A sighting whose RSU id is absent resolves to false here; the
code would panic there instead, which scanGps models. -/
def badSight (rsus : List RoadSideUnit) (rx : Nat) (d : ObuData) : Bool :=
  match rsus.find? (fun r => r.id == d.rsu_id) with
  | some rsu =>
    ! Ether.is_transmission_possible d.coordinate (rx + 3) rsu.coordinate
  | none => false

/-- rsu_manager.rs, the inner loop of find_faulty_obus over one round's
sightings of one OBU: look up each observing RSU (unwrap: none on a missing
id), and stop with `true` at the first sighting whose RSU is out of
rx_range+3 range of the reported coordinate. -/
def scanGps (rsus : List RoadSideUnit) (rx : Nat) :
    List ObuData → Option Bool
  | [] => some false
  | d :: ds =>
    match rsus.find? (fun r => r.id == d.rsu_id) with
    | none => none
    | some rsu =>
      if ! Ether.is_transmission_possible d.coordinate (rx + 3)
          rsu.coordinate then
        some true
      else
        scanGps rsus rx ds

/-- rsu_manager.rs, the per-entry statistics update of find_faulty_obus:
create the entry on first sight (first_seen = round index), increment
tx_count, and add the GPS-error indicator for this round. -/
def bumpStats (acc : List (Nat × ObuErrorStats)) (id i : Nat) (bad : Bool) :
    List (Nat × ObuErrorStats) :=
  if acc.any (fun p => p.1 == id) then
    acc.map (fun p =>
      if p.1 == id then
        (p.1, { p.2 with tx_count := p.2.tx_count + 1
                         gps_error_count :=
                           p.2.gps_error_count + (if bad then 1 else 0) })
      else p)
  else
    acc ++ [(id, { tx_count := 1
                   tx_error_count := 0
                   tx_error_rate := F32.zero
                   gps_error_count := if bad then 1 else 0
                   gps_error_rate := F32.zero
                   first_seen := i })]

def processEntry (rsus : List RoadSideUnit) (rx i : Nat)
    (acc : List (Nat × ObuErrorStats)) (e : Nat × List ObuData) :
    Option (List (Nat × ObuErrorStats)) := do
  let bad ← scanGps rsus rx e.2
  some (bumpStats acc e.1 i bad)

def processRound (rsus : List RoadSideUnit) (rx i : Nat)
    (acc : List (Nat × ObuErrorStats)) (rd : List (Nat × List ObuData)) :
    Option (List (Nat × ObuErrorStats)) :=
  rd.foldlM (processEntry rsus rx i) acc

/-- rsu_manager.rs, the first phase of find_faulty_obus: fold the whole
observation history into per-OBU statistics. -/
def collectErrorStats (m : RoadSideUnitManager) :
    Option (List (Nat × ObuErrorStats)) :=
  m.obu_observations.enum.foldlM
    (fun acc p => processRound m.rsus m.rx_range p.1 acc p.2) []

/-- rsu_manager.rs, the rate phase of find_faulty_obus:
tx_error_count = rounds - (tx_count + first_seen) (u32 subtraction; never
underflows because an OBU has at most one entry per round after first_seen),
tx_error_rate = tx_error_count / current_round,
gps_error_rate = gps_error_count / tx_count. -/
def rateStats (m : RoadSideUnitManager)
    (stats : List (Nat × ObuErrorStats)) : List (Nat × ObuErrorStats) :=
  let rounds := m.obu_observations.length
  stats.map (fun p =>
    let txe := rounds - (p.2.tx_count + p.2.first_seen)
    (p.1, { p.2 with
              tx_error_count := txe
              tx_error_rate := F32.div (F32.ofNat txe)
                (F32.ofNat m.current_round)
              gps_error_rate := F32.div (F32.ofNat p.2.gps_error_count)
                (F32.ofNat p.2.tx_count) }))

def insertSorted (x : F32) : List F32 → List F32
  | [] => [x]
  | y :: ys => if F32.ble x y then x :: y :: ys else y :: insertSorted x ys

/-- Sorting of a list of rate values.  Rust's stable sort_by and this
insertion sort agree up to the representations of equal values: both produce
the ascending sequence of represented values. -/
def sortVals (l : List F32) : List F32 :=
  l.foldr insertSorted []

/-- rsu_manager.rs, the median expression `sorted[len / 2 - 1]` used at lines
250 and 255 to form the per-channel thresholds.  For len ∈ {0, 1} the usize
index underflows and the program aborts; callers guard len ≥ 2. -/
def codeMedian (l : List F32) : F32 :=
  (sortVals l).getD (l.length / 2 - 1) F32.zero

/-- Modelled from the spec: the textbook median the specification prescribes
(middle element for odd-sized samples, average of the two central elements
for even-sized samples).  Used only to compare against the code's median. -/
def medianPerSpec (l : List F32) : F32 :=
  let s := sortVals l
  if l.length % 2 = 0 then
    F32.div (F32.add (s.getD (l.length / 2 - 1) F32.zero)
      (s.getD (l.length / 2) F32.zero)) (F32.ofNat 2)
  else
    s.getD (l.length / 2) F32.zero

/-- rsu_manager.rs, RoadSideUnitManager::calculate_mad.  On the empty list
the even branch computes `len/2 - 1` on usize, which underflows and aborts:
modelled as none.  The f64 widenings are exact on fractions. -/
def calculate_mad (values : List F32) : Option F32 :=
  let sorted_values := sortVals values
  if sorted_values.length = 0 then none
  else
    let median :=
      if sorted_values.length % 2 = 0 then
        F32.div (F32.add (sorted_values.getD (sorted_values.length / 2 - 1)
          F32.zero) (sorted_values.getD (sorted_values.length / 2) F32.zero))
          (F32.ofNat 2)
      else
        sorted_values.getD (sorted_values.length / 2) F32.zero
    let abs_devs := sortVals (sorted_values.map
      (fun v => F32.abs (F32.sub v median)))
    let mad :=
      if abs_devs.length % 2 = 0 then
        F32.div (F32.add (abs_devs.getD (abs_devs.length / 2 - 1) F32.zero)
          (abs_devs.getD (abs_devs.length / 2) F32.zero)) (F32.ofNat 2)
      else
        abs_devs.getD (abs_devs.length / 2) F32.zero
    some (F32.mul mad ⟨14826, 10000⟩)

/-- rsu_manager.rs, lines 244-256 of find_faulty_obus for one channel:
threshold = sorted[len/2 - 1] + 3 * calculate_mad(values). -/
def channelThreshold (l : List F32) : Option F32 := do
  let mad ← calculate_mad l
  some (F32.add (codeMedian l) (F32.mul (F32.ofNat 3) mad))

/-- rsu_manager.rs, the skip condition at line 305 of find_faulty_obus,
negated: an OBU is pushed onto the faulty list when it is NOT the case that
every enabled channel sees its rate strictly below the channel threshold. -/
def faultyDecision (dtx dgps : Bool) (txThr gpsThr : F32)
    (st : ObuErrorStats) : Bool :=
  ! ((!dtx || F32.blt st.tx_error_rate txThr) &&
     (!dgps || F32.blt st.gps_error_rate gpsThr))

/-- rsu_manager.rs, RoadSideUnitManager::find_faulty_obus.  none models the
aborts of the Rust code: a missing RSU id (unwrap), fewer than two observed
OBUs (`tx_errors[len/2 - 1]` underflows usize), or current_round = 0 with
observed OBUs (every rate is then NaN or +inf in f32 and either a sort's
`partial_cmp(..).unwrap()` or the median indexing aborts).  The emitted
reputation ledger and console printing are I/O side effects without influence
on the returned list and are not modelled. -/
def RoadSideUnitManager.find_faulty_obus (m : RoadSideUnitManager) :
    Option (List Nat) := do
  let stats0 ← collectErrorStats m
  let stats := rateStats m stats0
  if m.current_round = 0 ∧ stats ≠ [] then none
  else if stats.length < 2 then none
  else do
    let txThr ← channelThreshold (stats.map (fun p => p.2.tx_error_rate))
    let gpsThr ← channelThreshold (stats.map (fun p => p.2.gps_error_rate))
    some ((stats.filter (fun p =>
        faultyDecision m.detect_obu_tx_failure m.detect_obu_gps_failure
          txThr gpsThr p.2)).map (fun p => p.1))

structure Simulator where
  obu_manager : OnBoardUnitManager
  rsu_manager : RoadSideUnitManager
  grid : Grid
  round : Nat
  ether : List Message
deriving Repr, Inhabited

/-- simulator.rs, Simulator::new. -/
def Simulator.new (grid_params : GridParams)
    (rsu_manager_params : RsuManagerParams)
    (obu_manager_params : ObuManagerParams) : Simulator :=
  let grid := Grid.new grid_params
  { obu_manager := OnBoardUnitManager.new obu_manager_params grid.dimension
    rsu_manager := RoadSideUnitManager.new rsu_manager_params
    grid := grid
    round := 0
    ether := [] }

/-- simulator.rs, the inner y-loop of add_road_side_units, with the snap of
the last RSU row to the grid border.  Fuel bounds the iterations (y grows by
2*rx-1 ≥ 1 for rx ≥ 1, with at most one snap to dimension-1, so
dimension + 2 iterations suffice; for rx = 0 the Rust code never enters the
loops because rx-1 wraps to a huge u32). -/
def addRsusY (dim rx x : Nat) :
    Nat → RoadSideUnitManager → Nat → Nat → RoadSideUnitManager × Nat
  | 0, m, _, last => (m, last)
  | fuel + 1, m, y, last =>
    if y < dim then
      let r := m.create_rsu ⟨x, y⟩
      let id := r.1
      let m' := r.2
      let y1 := y + (rx * 2 - 1)
      let y2 :=
        if y1 ≥ dim then
          match m'.rsus.find? (fun u => u.id == id) with
          | some u => if u.coordinate.y + rx < dim then dim - 1 else y1
          | none => y1
        else y1
      addRsusY dim rx x fuel m' y2 id
    else (m, last)

/-- simulator.rs, the outer x-loop of add_road_side_units. -/
def addRsusX (dim rx : Nat) :
    Nat → RoadSideUnitManager → Nat → Nat → RoadSideUnitManager × Nat
  | 0, m, _, last => (m, last)
  | fuel + 1, m, x, last =>
    if x < dim then
      let r := addRsusY dim rx x (dim + 2) m (rx - 1) last
      let m' := r.1
      let last' := r.2
      let x1 := x + (rx * 2 - 1)
      let x2 :=
        if x1 ≥ dim then
          match m'.rsus.find? (fun u => u.id == last') with
          | some u => if u.coordinate.x + rx < dim then dim - 1 else x1
          | none => x1
        else x1
      addRsusX dim rx fuel m' x2 last'
    else (m, last)

/-- simulator.rs, Simulator::add_road_side_units.  The initial assert_eq
(RSUs already added) is modelled as none. -/
def Simulator.add_road_side_units (s : Simulator) : Option Simulator :=
  if s.rsu_manager.rsus.length ≠ 0 then none
  else
    let rx := s.rsu_manager.rx_range
    let r := addRsusX s.grid.dimension rx (s.grid.dimension + 2)
      s.rsu_manager (rx - 1) 0
    some { s with rsu_manager := r.1 }

/-- simulator.rs, Simulator::init (console printing dropped). -/
def Simulator.init (s : Simulator) : Option Simulator := do
  let s := { s with grid := s.grid.update_next_coordinates }
  let s ← s.add_road_side_units
  some { s with rsu_manager := s.rsu_manager.set_current_round 0
                obu_manager := s.obu_manager.set_current_round 0 }

/-- simulator.rs, Simulator::add_on_board_unit. -/
def Simulator.add_on_board_unit (s : Simulator) : Option Nat × Simulator :=
  match s.grid.insert_obu s.obu_manager.next_id with
  | (some c, g') =>
    let r := s.obu_manager.create_obu c
    (r.1, { s with grid := g', obu_manager := r.2 })
  | (none, g') => (none, { s with grid := g' })

/-- simulator.rs, the population top-up loop inside Simulator::run.  Each
successful add grows the population by one, so max_obus much fuel reproduces
the while loop exactly. -/
def Simulator.addObusLoop : Nat → Simulator → Simulator
  | 0, s => s
  | fuel + 1, s =>
    if s.obu_manager.obus.length < s.obu_manager.max_obus then
      match s.add_on_board_unit with
      | (some _, s') => Simulator.addObusLoop fuel s'
      | (none, s') => s'
    else s

/-- simulator.rs, Simulator::do_obus_moves: per OBU pick uniformly among the
currently possible moves (the random pick is the oracle's moveChoice, reduced
mod the candidate count) and swap the occupancy. -/
def Simulator.do_obus_moves (s : Simulator) (o : SimOracle) : Simulator :=
  let r := s.obu_manager.obus.foldl
    (fun (acc : List OnBoardUnit × Grid) obu =>
      let p := acc.2.get_possible_moves obu.coordinate
      match p.1 with
      | [] => (acc.1 ++ [obu], p.2)
      | _ :: _ =>
        let target := p.1.getD (o.moveChoice obu.id % p.1.length) default
        let g2 := p.2.move_obu obu.coordinate target
        (acc.1 ++ [{ obu with coordinate := target }], g2))
    ([], s.grid)
  { s with obu_manager := { s.obu_manager with obus := r.1 }, grid := r.2 }

/-- simulator.rs, Simulator::collect_messages: clear the ether, push every
OBU message with its coverage box filled in, then poll every RSU
(RoadSideUnit::get_message, which always returns none). -/
def Simulator.collect_messages (s : Simulator) (o : SimOracle) : Simulator :=
  let r := s.obu_manager.collect_messages o
  let obuMsgs := r.1.map (fun msg =>
    { msg with phy_area := s.grid.get_square_cords msg.phy_coord msg.phy_range })
  let rsuMsgs := (s.rsu_manager.rsus.filterMap
      (fun rsu => rsu.get_message)).map (fun msg =>
    { msg with phy_area := s.grid.get_square_cords msg.phy_coord
                 s.rsu_manager.tx_range })
  { s with obu_manager := r.2, ether := obuMsgs ++ rsuMsgs }

/-- simulator.rs, Simulator::deliver_messages (the RSU side can panic on a
round-index collision). -/
def Simulator.deliver_phase (s : Simulator) : Option Simulator := do
  let om := s.obu_manager.deliver_messages s.ether
  let rm ← s.rsu_manager.deliver_messages s.ether
  some { s with obu_manager := om, rsu_manager := rm }

/-- simulator.rs, one iteration of the round loop in Simulator::run:
deliver, move, top up the population, advance the round, collect. -/
def Simulator.step (s : Simulator) (o : SimOracle) : Option Simulator := do
  let s ← s.deliver_phase
  let s := s.do_obus_moves o
  let s := Simulator.addObusLoop s.obu_manager.max_obus s
  let s := { s with round := s.round + 1 }
  let s := { s with rsu_manager := s.rsu_manager.set_current_round s.round
                    obu_manager := s.obu_manager.set_current_round s.round }
  some (s.collect_messages o)

/-- Reachable simulation states: a fresh Simulator, initialization, the
pre-loop message collection of run() (only performed at round 0), and any
completed round-loop iteration. -/
inductive Reachable : Simulator → Prop
  | new : ∀ gp rp op, Reachable (Simulator.new gp rp op)
  | init : ∀ s s', Reachable s → Simulator.init s = some s' → Reachable s'
  | collect0 : ∀ s o, Reachable s → s.round = 0 →
      Reachable (s.collect_messages o)
  | step : ∀ s o s', Reachable s → Simulator.step s o = some s' →
      Reachable s'

/-- A sighting of a plausibly reported coordinate: RSU 0 at (0,0) is within
rx_range+3 = 5 of the reported coordinate (0,0). -/
def ex1good : List ObuData := [⟨⟨0, 0⟩, 0⟩]

/-- A sighting of a spoofed coordinate: (10,10) is farther than 5 from
RSU 0 at (0,0). -/
def ex1bad : List ObuData := [⟨⟨10, 10⟩, 0⟩]

/-- A concrete 8-round observation history over five OBUs (ids 1..5), one
RSU (id 0 at the origin), rx_range 2, both detectors enabled.  OBU 1 is seen
only in round 0 (high transmission-error rate, no GPS errors); OBUs 2..5 have
low transmission-error rates and a spread of GPS-error rates. -/
def ex1 : RoadSideUnitManager :=
  { next_id := 1
    tx_range := 2
    rx_range := 2
    rsus := [⟨0, ⟨0, 0⟩, []⟩]
    current_round := 8
    obu_observations :=
      [ [(1, ex1good), (2, ex1good), (3, ex1good), (4, ex1good), (5, ex1good)]
      , [(2, ex1bad), (3, ex1good), (4, ex1good), (5, ex1good)]
      , [(2, ex1good), (3, ex1bad), (4, ex1good), (5, ex1good)]
      , [(2, ex1good), (3, ex1good), (4, ex1bad), (5, ex1good)]
      , [(2, ex1good), (3, ex1good), (4, ex1bad), (5, ex1good)]
      , [(2, ex1good), (3, ex1good), (4, ex1good), (5, ex1bad)]
      , [(2, ex1good), (3, ex1good), (5, ex1bad)]
      , [(2, ex1good), (4, ex1good), (5, ex1good)] ]
    detect_obu_tx_failure := true
    detect_obu_gps_failure := true }

def ratedStatsOf (m : RoadSideUnitManager) :
    Option (List (Nat × ObuErrorStats)) :=
  (collectErrorStats m).map (rateStats m)

def txRateOf (m : RoadSideUnitManager) (id : Nat) : Option F32 :=
  (ratedStatsOf m).bind (fun stats =>
    (statsLookup stats id).map (fun st => st.tx_error_rate))

def gpsRateOf (m : RoadSideUnitManager) (id : Nat) : Option F32 :=
  (ratedStatsOf m).bind (fun stats =>
    (statsLookup stats id).map (fun st => st.gps_error_rate))

def txThresholdOf (m : RoadSideUnitManager) : Option F32 :=
  (ratedStatsOf m).bind (fun stats =>
    channelThreshold (stats.map (fun p => p.2.tx_error_rate)))

def gpsThresholdOf (m : RoadSideUnitManager) : Option F32 :=
  (ratedStatsOf m).bind (fun stats =>
    channelThreshold (stats.map (fun p => p.2.gps_error_rate)))

/-- A one-round history in which OBU 7 is sighted by RSU 0 (far from the
reported coordinate) and by RSU 1 (at the reported coordinate). -/
def ex2 : RoadSideUnitManager :=
  { next_id := 2
    tx_range := 2
    rx_range := 2
    rsus := [⟨0, ⟨0, 0⟩, []⟩, ⟨1, ⟨10, 10⟩, []⟩]
    current_round := 1
    obu_observations := [[(7, [⟨⟨10, 10⟩, 0⟩, ⟨⟨10, 10⟩, 1⟩])]]
    detect_obu_tx_failure := true
    detect_obu_gps_failure := true }

def gridC3 : Grid := Grid.new ⟨3, 2⟩

/-- An OBU at (4,4): its coverage box overlaps the coverage box of a sender
at (0,0) with range 5, but its Euclidean distance to (0,0) exceeds 5. -/
def obuC3 : OnBoardUnit :=
  { id := 0
    coordinate := ⟨4, 4⟩
    tx_range := 2
    tx_failure_rate := F32.zero
    gps_failure_rate := F32.zero
    is_faulty := false
    neighbors := []
    grid_dimension := 10 }

def msgC3 : Message :=
  { origin_id := 1
    origin_type := NodeType.OBU
    coordinate := ⟨0, 0⟩
    phy_coord := ⟨0, 0⟩
    phy_range := 5
    phy_area := gridC3.get_square_cords ⟨0, 0⟩ 5 }

def mgrC3 : OnBoardUnitManager :=
  { OnBoardUnitManager.new
    ⟨1, 2, F32.zero, F32.zero, F32.zero, F32.zero, 0⟩ 10 with
    obus := [obuC3] }

/-- The reference sample of the MAD unit test (exact decimal rationals). -/
def refVals : List F32 :=
  [⟨123, 100⟩, ⟨356, 100⟩, ⟨789, 100⟩, ⟨12, 100⟩, ⟨456, 100⟩, ⟨901, 100⟩,
   ⟨234, 100⟩, ⟨678, 100⟩, ⟨1012, 100⟩, ⟨567, 100⟩]

/-- A manager whose history observes two OBUs over one round. -/
def ex5 : RoadSideUnitManager :=
  { next_id := 1
    tx_range := 2
    rx_range := 2
    rsus := [⟨0, ⟨0, 0⟩, []⟩]
    current_round := 1
    obu_observations := [[(1, [⟨⟨0, 0⟩, 0⟩]), (2, [⟨⟨0, 0⟩, 0⟩])]]
    detect_obu_tx_failure := true
    detect_obu_gps_failure := true }

/-- A manager with an empty observation history (no round ever delivered). -/
def ex5empty : RoadSideUnitManager :=
  { next_id := 1
    tx_range := 2
    rx_range := 2
    rsus := [⟨0, ⟨0, 0⟩, []⟩]
    current_round := 1
    obu_observations := []
    detect_obu_tx_failure := true
    detect_obu_gps_failure := true }

/-- A manager in the state right after a round was delivered: the history
length equals current_round, so one more delivery succeeds and a second one
without advancing the round panics. -/
def ex6 : RoadSideUnitManager :=
  { next_id := 0
    tx_range := 2
    rx_range := 2
    rsus := []
    current_round := 0
    obu_observations := []
    detect_obu_tx_failure := false
    detect_obu_gps_failure := false }

/-- obu_manager.rs: a sequence of create_obu calls (each call's returned id
paired with the state threading). -/
def createMany (m : OnBoardUnitManager) :
    List Coordinate → List (Option Nat) × OnBoardUnitManager
  | [] => ([], m)
  | c :: cs =>
    let r := m.create_obu c
    let rest := createMany r.2 cs
    (r.1 :: rest.1, rest.2)

/-- The invariant of the C7 fault-placement argument: after n successful
create_obu calls on a fresh manager with capacity 100 and target faulty
count 20, the k-th created OBU (0-based) is faulty exactly when (k+1) is a
multiple of 100/20 = 5, with the corresponding failure rates. -/
def C7Inv (txB txF gpsB gpsF : F32) (n : Nat) (m : OnBoardUnitManager) :
    Prop :=
  m.next_id = n ∧ m.obus.length = n ∧ m.faulty_obus_added = n / 5 ∧
  m.max_obus = 100 ∧ m.faulty_obus = 20 ∧
  m.tx_base_failure_rate = txB ∧ m.tx_faulty_obu_failure_rate = txF ∧
  m.gps_failure_rate = gpsB ∧ m.gps_faulty_obu_failure_rate = gpsF ∧
  m.obus.countP (fun o => o.is_faulty) = n / 5 ∧
  (∀ k o, m.obus.get? k = some o →
    (o.is_faulty = true ↔ (k + 1) % 5 = 0) ∧
    o.tx_failure_rate = (if (k + 1) % 5 = 0 then txF else txB) ∧
    o.gps_failure_rate = (if (k + 1) % 5 = 0 then gpsF else gpsB) ∧
    o.id = k)

/-- The acceptance test the OBU delivery actually performs on a message:
exact Euclidean range from the sender's physical coordinate, OBU origin,
not the receiver's own message. -/
def acceptsMsg (obu : OnBoardUnit) (msg : Message) : Bool :=
  Ether.is_transmission_possible msg.phy_coord msg.phy_range obu.coordinate
    && (msg.origin_type == NodeType.OBU) && (msg.origin_id != obu.id)

/-- Concrete parameters for the C7 scenario: capacity 100, target faulty
count 20, arbitrary other values. -/
def c7params : ObuManagerParams :=
  ⟨100, 2, F32.zero, ⟨1, 10⟩, F32.zero, ⟨1, 10⟩, 20⟩

theorem insertSorted_length (x : F32) (l : List F32) :
    (insertSorted x l).length = l.length + 1 := by
  induction l with
  | nil => rfl
  | cons y ys ih =>
    simp only [insertSorted]
    split
    · simp
    · simp [ih]

theorem sortVals_length (l : List F32) : (sortVals l).length = l.length := by
  induction l with
  | nil => rfl
  | cons x xs ih => simp [sortVals, List.foldr] at ih ⊢; simp [insertSorted_length, ih]

/-- C6: if the observation history already holds exactly the rounds before
the current one, a delivery succeeds and appends one round entry, and a
second delivery without advancing the round counter panics (none) instead of
silently absorbing the collision. -/
theorem C6_round_collision_fatal (m : RoadSideUnitManager)
    (msgs msgs2 : List Message)
    (h : m.obu_observations.length = m.current_round) :
    ∃ m' rd, m.deliver_messages msgs = some m' ∧
      m'.obu_observations = m.obu_observations ++ [rd] ∧
      m'.current_round = m.current_round ∧
      m'.deliver_messages msgs2 = none := by
  have hne : (m.obu_observations.length == m.current_round + 1) = false := by
    simp [h]
  simp only [RoadSideUnitManager.deliver_messages,
    RoadSideUnitManager.update_obu_observations, hne, Bool.false_eq_true,
    if_false]
  refine ⟨_, _, rfl, rfl, rfl, ?_⟩
  simp [h]

theorem C6_witness :
    ∃ m' rd, ex6.deliver_messages [] = some m' ∧
      m'.obu_observations = ex6.obu_observations ++ [rd] ∧
      m'.current_round = ex6.current_round ∧
      m'.deliver_messages [] = none :=
  C6_round_collision_fatal ex6 [] [] (by decide)

/-- C8: Grid::new yields dimension = blocksPerStreet*blockSize +
blocksPerStreet + 1 and marks cell (r,c) as street exactly when r or c is a
multiple of blockSize+1. -/
theorem C8_grid_new_streets (bps bs : Nat) :
    (Grid.new ⟨bps, bs⟩).dimension = bps * bs + bps + 1 ∧
    ∀ r c, r < (Grid.new ⟨bps, bs⟩).dimension →
      c < (Grid.new ⟨bps, bs⟩).dimension →
      (((Grid.new ⟨bps, bs⟩).getCell r c).is_street = true ↔
        (r % (bs + 1) = 0 ∨ c % (bs + 1) = 0)) := by
  constructor
  · rfl
  · intro r c hr hc
    simp only [Grid.new] at hr hc
    simp [Grid.new, Grid.getCell, List.getD_eq_getElem?_getD,
      List.getElem?_map, List.getElem?_range, hr, hc]

theorem C8_witness :
    (Grid.new ⟨3, 2⟩).dimension = 3 * 2 + 3 + 1 ∧
    (((Grid.new ⟨3, 2⟩).getCell 0 5).is_street = true ↔
      (0 % 3 = 0 ∨ 5 % 3 = 0)) ∧
    (((Grid.new ⟨3, 2⟩).getCell 4 5).is_street = true ↔
      (4 % 3 = 0 ∨ 5 % 3 = 0)) :=
  ⟨(C8_grid_new_streets 3 2).1,
   (C8_grid_new_streets 3 2).2 0 5 (by decide) (by decide),
   (C8_grid_new_streets 3 2).2 4 5 (by decide) (by decide)⟩

/-- C9: for range ≥ 1 and an in-bounds coordinate, get_square_cords clamps
the half-width (range-1) box to [0, dimension-1] on both axes. -/
theorem C9_square_cords_clamp (g : Grid) (c : Coordinate) (range : Nat)
    (h1 : 1 ≤ range) (hx : c.x < g.dimension) (_hy : c.y < g.dimension) :
    ((g.get_square_cords c range).x1 : Int) =
      max 0 ((c.x : Int) - ((range : Int) - 1)) ∧
    ((g.get_square_cords c range).y1 : Int) =
      max 0 ((c.y : Int) - ((range : Int) - 1)) ∧
    ((g.get_square_cords c range).x2 : Int) =
      min ((g.dimension : Int) - 1) ((c.x : Int) + ((range : Int) - 1)) ∧
    ((g.get_square_cords c range).y2 : Int) =
      min ((g.dimension : Int) - 1) ((c.y : Int) + ((range : Int) - 1)) := by
  have hd : 1 ≤ g.dimension := Nat.lt_of_le_of_lt (Nat.zero_le _) hx
  simp only [Grid.get_square_cords]
  refine ⟨?_, ?_, ?_, ?_⟩ <;> (try split_ifs) <;>
    (try simp only [Nat.cast_min]) <;> omega

theorem C9_witness :
    (((Grid.new ⟨3, 2⟩).get_square_cords ⟨0, 0⟩ 5).x1 : Int) =
      max 0 (((0 : Nat) : Int) - ((5 : Int) - 1)) ∧
    (((Grid.new ⟨3, 2⟩).get_square_cords ⟨0, 0⟩ 5).y1 : Int) =
      max 0 (((0 : Nat) : Int) - ((5 : Int) - 1)) ∧
    (((Grid.new ⟨3, 2⟩).get_square_cords ⟨0, 0⟩ 5).x2 : Int) =
      min (((Grid.new ⟨3, 2⟩).dimension : Int) - 1)
        (((0 : Nat) : Int) + ((5 : Int) - 1)) ∧
    (((Grid.new ⟨3, 2⟩).get_square_cords ⟨0, 0⟩ 5).y2 : Int) =
      min (((Grid.new ⟨3, 2⟩).dimension : Int) - 1)
        (((0 : Nat) : Int) + ((5 : Int) - 1)) :=
  C9_square_cords_clamp (Grid.new ⟨3, 2⟩) ⟨0, 0⟩ 5 (by decide) (by decide)
    (by decide)

/-- The two clamp examples of the claim, evaluated on the embedding: a
dimension-10 grid, (0,0) with range 5 gives box (0,0,4,4) and (9,9) with
range 5 gives box (5,5,9,9). -/
theorem C9_examples :
    (Grid.new ⟨3, 2⟩).dimension = 10 ∧
    (Grid.new ⟨3, 2⟩).get_square_cords ⟨0, 0⟩ 5 = ⟨0, 0, 4, 4⟩ ∧
    (Grid.new ⟨3, 2⟩).get_square_cords ⟨9, 9⟩ 5 = ⟨5, 5, 9, 9⟩ := by
  decide

theorem receive_message_fields (o : OnBoardUnit) (msg : Message) :
    (o.receive_message msg).coordinate = o.coordinate ∧
    (o.receive_message msg).id = o.id := by
  unfold OnBoardUnit.receive_message
  cases msg.origin_type <;> simp <;> split <;> simp

theorem deliver_fold_characterizes (ms : List Message) (o : OnBoardUnit) :
    ms.foldl (fun (a : OnBoardUnit) (msg : Message) =>
        if Ether.is_transmission_possible msg.phy_coord msg.phy_range
            a.coordinate then a.receive_message msg else a) o =
      { o with neighbors := (o.neighbors ++ (ms.filter (fun msg =>
          Ether.is_transmission_possible msg.phy_coord msg.phy_range
              o.coordinate
            && (msg.origin_type == NodeType.OBU)
            && (msg.origin_id != o.id))).map
          (fun msg => ⟨msg.origin_id, msg.coordinate⟩)) } := by
  induction ms generalizing o with
  | nil => simp
  | cons msg ms ih =>
    simp only [List.foldl_cons, List.filter_cons]
    by_cases hpos : Ether.is_transmission_possible msg.phy_coord msg.phy_range
        o.coordinate = true
    · rw [if_pos hpos]
      cases hty : msg.origin_type with
      | RSU =>
        have hrm : o.receive_message msg = o := by
          unfold OnBoardUnit.receive_message; rw [hty]
        rw [hrm, ih]
        simp [hpos, hty]
      | OBU =>
        by_cases hid : msg.origin_id = o.id
        · have hrm : o.receive_message msg = o := by
            unfold OnBoardUnit.receive_message; rw [hty]; simp [hid]
          rw [hrm, ih]
          simp [hpos, hty, hid]
        · have hrm : o.receive_message msg =
              { o with neighbors := o.neighbors ++ [⟨msg.origin_id,
                  msg.coordinate⟩] } := by
            unfold OnBoardUnit.receive_message; rw [hty]; simp [hid]
          rw [hrm, ih]
          simp [hpos, hty, hid]
    · rw [if_neg hpos, ih]
      simp only [Bool.not_eq_true] at hpos
      simp [hpos]

/-- C3 (amended): deliver_messages resets each OBU's neighbor list and then
records exactly the messages that pass the exact Euclidean range test from
the sender's physical coordinate (not a coverage-box overlap), are
OBU-origin, and are not the OBU's own, storing the sender's reported
coordinate. -/
theorem C3_deliver_messages_exact (m : OnBoardUnitManager)
    (messages : List Message) :
    (m.deliver_messages messages).obus = m.obus.map (fun obu =>
      { obu with neighbors := ((messages.filter (acceptsMsg obu)).map
          (fun msg => ⟨msg.origin_id, msg.coordinate⟩)) }) := by
  unfold OnBoardUnitManager.deliver_messages
  simp only []
  apply List.map_congr_left
  intro obu _
  rw [deliver_fold_characterizes]
  rfl

/-- C3 counterexample: msgC3's coverage box overlaps obuC3's coverage box
and it is not obuC3's own message, yet deliver_messages records no neighbor,
because the sender's physical coordinate is out of exact Euclidean range.
The claim's box-overlap acceptance criterion is therefore false of the code. -/
theorem C3_counterexample :
    gridC3.check_overlaping_squares msgC3.phy_area
      (gridC3.get_square_cords obuC3.coordinate obuC3.tx_range) = true ∧
    msgC3.origin_type = NodeType.OBU ∧
    msgC3.origin_id ≠ obuC3.id ∧
    (mgrC3.deliver_messages [msgC3]).obus.map (fun o => o.neighbors) =
      [[]] := by
  decide

theorem calculate_mad_eq_spec (l : List F32) (h : l ≠ []) :
    calculate_mad l =
      some (F32.mul (medianPerSpec ((sortVals l).map
        (fun v => F32.abs (F32.sub v (medianPerSpec l))))) ⟨14826, 10000⟩) := by
  have h0 : (sortVals l).length ≠ 0 := by
    simpa [sortVals_length] using (List.length_pos.mpr h).ne'
  unfold calculate_mad medianPerSpec
  rw [if_neg h0]
  simp only [sortVals_length, List.length_map]

/-- C4 (amended): calculate_mad realizes the spec's median at both of its
stages (middle element for odd sizes, average of the two central elements
for even sizes) and meets the 4.115 ± 0.001 reference (its exact value is
822843/200000 = 4.114215); the per-channel thresholds of find_faulty_obus,
however, are built from the single sorted element at index len/2 - 1
(codeMedian), not from that spec median. -/
theorem C4_mad_median_handling :
    (∀ l : List F32, l ≠ [] →
      calculate_mad l =
        some (F32.mul (medianPerSpec ((sortVals l).map
          (fun v => F32.abs (F32.sub v (medianPerSpec l))))) ⟨14826, 10000⟩)) ∧
    ((calculate_mad refVals).map
        (fun q => F32.beq q ⟨822843, 200000⟩) = some true ∧
      (calculate_mad refVals).map
        (fun q => F32.blt (F32.abs (F32.sub q ⟨4115, 1000⟩)) ⟨1, 1000⟩) =
          some true) ∧
    (∀ l : List F32, l ≠ [] →
      channelThreshold l =
        some (F32.add (codeMedian l) (F32.mul (F32.ofNat 3)
          (F32.mul (medianPerSpec ((sortVals l).map
            (fun v => F32.abs (F32.sub v (medianPerSpec l)))))
            ⟨14826, 10000⟩)))) := by
  refine ⟨calculate_mad_eq_spec, ⟨by decide, by decide⟩, ?_⟩
  intro l h
  unfold channelThreshold
  rw [calculate_mad_eq_spec l h]
  rfl

theorem C4_witness :
    refVals ≠ [] ∧
    calculate_mad refVals =
      some (F32.mul (medianPerSpec ((sortVals refVals).map
        (fun v => F32.abs (F32.sub v (medianPerSpec refVals)))))
        ⟨14826, 10000⟩) :=
  ⟨by decide, C4_mad_median_handling.1 refVals (by decide)⟩

/-- C4 counterexample: on the odd-sized sample [1/4, 0, 1/2] the median the
detector's threshold uses (sorted[len/2 - 1], i.e. sorted[0]) has value 0,
not the middle element 1/4 prescribed by the claim, and the channel
threshold is built from that 0 (threshold value 22239/20000, not
1/4 + 22239/20000). -/
theorem C4_counterexample :
    F32.beq (codeMedian [⟨1, 4⟩, F32.zero, ⟨1, 2⟩]) F32.zero = true ∧
    F32.beq (medianPerSpec [⟨1, 4⟩, F32.zero, ⟨1, 2⟩]) ⟨1, 4⟩ = true ∧
    F32.beq F32.zero ⟨1, 4⟩ = false ∧
    (channelThreshold [⟨1, 4⟩, F32.zero, ⟨1, 2⟩]).map
      (fun t => F32.beq t ⟨22239, 20000⟩) = some true := by
  decide

theorem calculate_mad_of_ne_nil (l : List F32) (h : l ≠ []) :
    ∃ q, calculate_mad l = some q := by
  have h0 : (sortVals l).length ≠ 0 := by
    simpa [sortVals_length] using (List.length_pos.mpr h).ne'
  unfold calculate_mad
  rw [if_neg h0]
  exact ⟨_, rfl⟩

theorem channelThreshold_of_ne_nil (l : List F32) (h : l ≠ []) :
    ∃ t, channelThreshold l = some t := by
  obtain ⟨q, hq⟩ := calculate_mad_of_ne_nil l h
  exact ⟨F32.add (codeMedian l) (F32.mul (F32.ofNat 3) q),
    by simp [channelThreshold, hq]⟩

theorem rateStats_length (m : RoadSideUnitManager)
    (stats0 : List (Nat × ObuErrorStats)) :
    (rateStats m stats0).length = stats0.length := by
  simp [rateStats]

/-- C5 (amended): find_faulty_obus never divides by zero in an aborting way
(all its divisions are float divisions), but it does abort when fewer than
two OBUs were ever observed (the median index len/2 - 1 underflows usize) or
when the round counter is zero with observed OBUs (NaN comparisons); with at
least two observed OBUs and a positive round counter every division and
every index into the sorted error-rate vectors is well-defined and the
detector returns a result. -/
theorem C5_no_abort_with_two_obus (m : RoadSideUnitManager)
    (stats0 : List (Nat × ObuErrorStats))
    (hs : collectErrorStats m = some stats0) (h2 : 2 ≤ stats0.length)
    (hr : 1 ≤ m.current_round) :
    ∃ out, m.find_faulty_obus = some out := by
  have hne : ¬ (m.current_round = 0 ∧ rateStats m stats0 ≠ []) := by
    rintro ⟨h0, -⟩
    omega
  have hlen : ¬ ((rateStats m stats0).length < 2) := by
    rw [rateStats_length]
    omega
  have htxne : (rateStats m stats0).map (fun p => p.2.tx_error_rate) ≠ [] := by
    have : ((rateStats m stats0).map (fun p => p.2.tx_error_rate)).length =
        stats0.length := by simp [rateStats_length]
    intro hnil
    rw [hnil] at this
    simp at this
    omega
  have hgpsne : (rateStats m stats0).map (fun p => p.2.gps_error_rate) ≠ [] := by
    have : ((rateStats m stats0).map (fun p => p.2.gps_error_rate)).length =
        stats0.length := by simp [rateStats_length]
    intro hnil
    rw [hnil] at this
    simp at this
    omega
  obtain ⟨t, ht⟩ := channelThreshold_of_ne_nil _ htxne
  obtain ⟨u, hu⟩ := channelThreshold_of_ne_nil _ hgpsne
  refine ⟨((rateStats m stats0).filter (fun p =>
      faultyDecision m.detect_obu_tx_failure m.detect_obu_gps_failure t u
        p.2)).map (fun p => p.1), ?_⟩
  simp only [RoadSideUnitManager.find_faulty_obus, hs,
    Option.bind_eq_bind, Option.some_bind, if_neg hne, if_neg hlen, ht, hu]

theorem C5_witness :
    ∃ out, ex5.find_faulty_obus = some out :=
  C5_no_abort_with_two_obus ex5 ((collectErrorStats ex5).getD []) (by decide)
    (by decide) (by decide)

/-- C5 counterexample: with an empty observation history (zero eligible
observations on both channels) find_faulty_obus aborts — the Rust code
panics computing `tx_errors[len/2 - 1]` on usize with len = 0 — modelled
here as a none result, contradicting the claim that the detector does not
abort in this situation. -/
theorem C5_counterexample :
    ex5empty.obu_observations = [] ∧
    ex5empty.find_faulty_obus = none := by
  decide

theorem badSight_eq_true_iff (rsus : List RoadSideUnit) (rx : Nat)
    (d : ObuData) :
    badSight rsus rx d = true ↔
      ∃ rsu, rsus.find? (fun r => r.id == d.rsu_id) = some rsu ∧
        ¬ (distSq d.coordinate rsu.coordinate ≤ ((rx + 3 : Nat) : Int) ^ 2) := by
  unfold badSight
  cases hf : rsus.find? (fun r => r.id == d.rsu_id) with
  | none => simp [hf]
  | some rsu => simp [hf, Ether.is_transmission_possible]

theorem scanGps_eq (rsus : List RoadSideUnit) (rx : Nat)
    (datas : List ObuData)
    (h : ∀ d ∈ datas, (rsus.find? (fun r => r.id == d.rsu_id)).isSome) :
    scanGps rsus rx datas = some (datas.any (badSight rsus rx)) := by
  induction datas with
  | nil => rfl
  | cons d ds ih =>
    obtain ⟨rsu, hrsu⟩ := Option.isSome_iff_exists.mp (h d (by simp))
    unfold scanGps
    rw [hrsu]
    cases hpos : Ether.is_transmission_possible d.coordinate (rx + 3)
        rsu.coordinate with
    | false => simp [List.any_cons, badSight, hrsu, hpos]
    | true =>
      have hds := ih (fun x hx => h x (by simp [hx]))
      simp [List.any_cons, badSight, hrsu, hpos, hds]

theorem statsLookup_bumpStats (acc : List (Nat × ObuErrorStats)) (id i : Nat)
    (b : Bool) :
    statsLookup (bumpStats acc id i b) id =
      some (match statsLookup acc id with
            | some st =>
              { st with tx_count := st.tx_count + 1
                        gps_error_count :=
                          st.gps_error_count + (if b then 1 else 0) }
            | none =>
              { tx_count := 1
                tx_error_count := 0
                tx_error_rate := F32.zero
                gps_error_count := if b then 1 else 0
                gps_error_rate := F32.zero
                first_seen := i }) := by
  induction acc with
  | nil => simp [bumpStats, statsLookup, List.find?]
  | cons p acc ih =>
    by_cases hp : (p.1 == id) = true
    · have hp' : p.1 = id := by simpa using hp
      subst hp'
      simp [bumpStats, statsLookup, List.any_cons, List.find?]
    · have hp0 : (p.1 == id) = false := Bool.eq_false_iff.mpr hp
      by_cases ha : (acc.any (fun q => q.1 == id)) = true
      · simp only [bumpStats, List.any_cons, hp0, Bool.false_or, ha,
          if_true] at ih ⊢
        simpa [statsLookup, List.find?, hp0] using ih
      · have ha0 : (acc.any (fun q => q.1 == id)) = false :=
          Bool.eq_false_iff.mpr ha
        simp only [bumpStats, List.any_cons, hp0, Bool.false_or, ha0,
          if_false] at ih ⊢
        simpa [statsLookup, List.find?, hp0] using ih

/-- C2 (amended): processing one round's entry (obu id, sightings) of the
observation history, find_faulty_obus counts exactly one GPS-plausibility
error for that OBU for that round when SOME sighting's observing RSU is
farther than rx_range+3 (Euclidean) from that sighting's reported
coordinate, and zero errors otherwise — never more than one per round.  (The
claim's criterion — no observing RSU within range — disagrees when sightings
mix in-range and out-of-range RSUs.) -/
theorem C2_gps_error_per_round (rsus : List RoadSideUnit) (rx i : Nat)
    (acc : List (Nat × ObuErrorStats)) (id : Nat) (datas : List ObuData)
    (h : ∀ d ∈ datas, (rsus.find? (fun r => r.id == d.rsu_id)).isSome) :
    processEntry rsus rx i acc (id, datas) =
      some (bumpStats acc id i (datas.any (badSight rsus rx))) ∧
    (statsLookup (bumpStats acc id i (datas.any (badSight rsus rx))) id).map
        (fun st => st.gps_error_count) =
      some ((match statsLookup acc id with
             | some st => st.gps_error_count
             | none => 0) +
            (if datas.any (badSight rsus rx) then 1 else 0)) ∧
    (datas.any (badSight rsus rx) = true ↔
      ∃ d ∈ datas, ∃ rsu,
        rsus.find? (fun r => r.id == d.rsu_id) = some rsu ∧
        ¬ (distSq d.coordinate rsu.coordinate ≤ ((rx + 3 : Nat) : Int) ^ 2)) := by
  refine ⟨?_, ?_, ?_⟩
  · simp [processEntry, scanGps_eq rsus rx datas h]
  · rw [statsLookup_bumpStats]
    cases hl : statsLookup acc id <;> simp [hl]
  · simp [List.any_eq_true, badSight_eq_true_iff]

theorem C2_witness :
    processEntry [⟨0, ⟨0, 0⟩, []⟩] 2 0 [] (7, [⟨⟨10, 10⟩, 0⟩]) =
      some (bumpStats [] 7 0 ([⟨⟨10, 10⟩, 0⟩].any
        (badSight [⟨0, ⟨0, 0⟩, []⟩] 2))) ∧
    (statsLookup (bumpStats [] 7 0 ([⟨⟨10, 10⟩, 0⟩].any
        (badSight [⟨0, ⟨0, 0⟩, []⟩] 2))) 7).map
        (fun st => st.gps_error_count) =
      some ((match statsLookup [] 7 with
             | some st => st.gps_error_count
             | none => 0) +
            (if [⟨⟨10, 10⟩, 0⟩].any (badSight [⟨0, ⟨0, 0⟩, []⟩] 2) then 1
             else 0)) ∧
    ([⟨⟨10, 10⟩, 0⟩].any (badSight [⟨0, ⟨0, 0⟩, []⟩] 2) = true ↔
      ∃ d ∈ [(⟨⟨10, 10⟩, 0⟩ : ObuData)], ∃ rsu,
        [(⟨0, ⟨0, 0⟩, []⟩ : RoadSideUnit)].find?
          (fun r => r.id == d.rsu_id) = some rsu ∧
        ¬ (distSq d.coordinate rsu.coordinate ≤ ((2 + 3 : Nat) : Int) ^ 2)) :=
  C2_gps_error_per_round [⟨0, ⟨0, 0⟩, []⟩] 2 0 [] 7 [⟨⟨10, 10⟩, 0⟩]
    (by decide)

/-- C2 counterexample: in ex2's single round OBU 7 has two sightings of the
reported coordinate (10,10): one by RSU 0 at (0,0) (out of range 5) and one
by RSU 1 at (10,10) (within range 5).  Some observing RSU is within
rx_range+3 of the reported coordinate, so the claim demands zero GPS errors,
but the detector counts one (it breaks at the first out-of-range RSU). -/
theorem C2_counterexample :
    ex2.obu_observations = [[(7, [⟨⟨10, 10⟩, 0⟩, ⟨⟨10, 10⟩, 1⟩])]] ∧
    ex2.rsus.find? (fun r => r.id == (1 : Nat)) = some ⟨1, ⟨10, 10⟩, []⟩ ∧
    Ether.is_transmission_possible ⟨10, 10⟩ (ex2.rx_range + 3) ⟨10, 10⟩ =
      true ∧
    (collectErrorStats ex2).map (fun s =>
      (statsLookup s 7).map (fun st => st.gps_error_count)) =
        some (some 1) := by
  decide

theorem F32.blt_eq_false_iff (a b : F32) :
    (F32.blt a b = false) ↔ F32.ble b a = true := by
  simp [F32.blt, F32.ble, not_lt]

theorem faultyDecision_iff (d1 d2 : Bool) (t u : F32) (st : ObuErrorStats) :
    faultyDecision d1 d2 t u st = true ↔
      ((d1 = true ∧ F32.ble t st.tx_error_rate = true) ∨
       (d2 = true ∧ F32.ble u st.gps_error_rate = true)) := by
  cases d1 <;> cases d2 <;> simp [faultyDecision, F32.blt, F32.ble, not_lt]

/-- C1 (amended): when find_faulty_obus returns a list, an OBU id is in it
iff the detector computed statistics for it and AT LEAST ONE enabled
detection channel (transmission, GPS) sees its error rate at or above that
channel's threshold.  (The claim's "each enabled detector" — a conjunction —
is false of the code: the skip condition at rsu_manager.rs:305 requires
every enabled channel to be under threshold for an OBU to be skipped.) -/
theorem C1_faulty_iff_any_enabled_over (m : RoadSideUnitManager)
    (stats0 : List (Nat × ObuErrorStats)) (t u : F32) (out : List Nat)
    (hs : collectErrorStats m = some stats0)
    (ht : channelThreshold ((rateStats m stats0).map
      (fun p => p.2.tx_error_rate)) = some t)
    (hu : channelThreshold ((rateStats m stats0).map
      (fun p => p.2.gps_error_rate)) = some u)
    (hf : m.find_faulty_obus = some out) (x : Nat) :
    x ∈ out ↔ ∃ st, (x, st) ∈ rateStats m stats0 ∧
      ((m.detect_obu_tx_failure = true ∧
          F32.ble t st.tx_error_rate = true) ∨
       (m.detect_obu_gps_failure = true ∧
          F32.ble u st.gps_error_rate = true)) := by
  simp only [RoadSideUnitManager.find_faulty_obus, hs, Option.bind_eq_bind,
    Option.some_bind, ht, hu] at hf
  split at hf
  · exact absurd hf (by simp)
  · split at hf
    · exact absurd hf (by simp)
    · rw [Option.some_inj] at hf
      subst hf
      constructor
      · intro hx
        obtain ⟨p, hp, hpx⟩ := List.mem_map.mp hx
        obtain ⟨hmem, hdec⟩ := List.mem_filter.mp hp
        refine ⟨p.2, ?_, (faultyDecision_iff _ _ _ _ _).mp hdec⟩
        rw [← hpx]
        simpa using hmem
      · rintro ⟨st, hmem, hcond⟩
        refine List.mem_map.mpr ⟨(x, st), List.mem_filter.mpr
          ⟨hmem, (faultyDecision_iff _ _ _ _ _).mpr hcond⟩, rfl⟩

theorem C1_witness :
    (1 : Nat) ∈ [1] ↔
      ∃ st, ((1 : Nat), st) ∈ rateStats ex1 ((collectErrorStats ex1).getD [])
        ∧
        ((ex1.detect_obu_tx_failure = true ∧
            F32.ble ((channelThreshold ((rateStats ex1
              ((collectErrorStats ex1).getD [])).map
              (fun p => p.2.tx_error_rate))).getD F32.zero)
              st.tx_error_rate = true) ∨
         (ex1.detect_obu_gps_failure = true ∧
            F32.ble ((channelThreshold ((rateStats ex1
              ((collectErrorStats ex1).getD [])).map
              (fun p => p.2.gps_error_rate))).getD F32.zero)
              st.gps_error_rate = true)) :=
  C1_faulty_iff_any_enabled_over ex1 ((collectErrorStats ex1).getD [])
    ((channelThreshold ((rateStats ex1
      ((collectErrorStats ex1).getD [])).map
      (fun (p : Nat × ObuErrorStats) => p.2.tx_error_rate))).getD F32.zero)
    ((channelThreshold ((rateStats ex1
      ((collectErrorStats ex1).getD [])).map
      (fun (p : Nat × ObuErrorStats) => p.2.gps_error_rate))).getD F32.zero)
    [1] rfl rfl rfl rfl 1

/-- C1 counterexample: on ex1 (both detectors enabled) the detector reports
OBU 1, whose GPS error rate (0) is strictly below the GPS channel threshold;
under the claim's "each enabled detector at or above threshold" criterion
OBU 1 must not be reported. -/
theorem C1_counterexample :
    ex1.find_faulty_obus = some [1] ∧
    ex1.detect_obu_gps_failure = true ∧
    ((gpsRateOf ex1 1).bind (fun r =>
      (gpsThresholdOf ex1).map (fun thr => F32.blt r thr))) = some true := by
  decide

theorem C7_step (txB txF gpsB gpsF : F32) (m : OnBoardUnitManager) (n : Nat)
    (c : Coordinate) (hinv : C7Inv txB txF gpsB gpsF n m) (hn : n < 100) :
    (m.create_obu c).1 = some n ∧
    C7Inv txB txF gpsB gpsF (n + 1) (m.create_obu c).2 := by
  obtain ⟨hnext, hlen, hadd, hmax, hfa, htxB, htxF, hgpsB, hgpsF, hcount,
    hall⟩ := hinv
  have hguard : ¬ (m.obus.length ≥ m.max_obus) := by omega
  have hcond : (m.faulty_obus > 0 && decide (m.faulty_obus_added <
      m.faulty_obus) && ((m.obus.length + 1) %
        (m.max_obus / m.faulty_obus) == 0)) = ((n + 1) % 5 == 0) := by
    rw [hlen, hadd, hmax, hfa]
    have h2 : n / 5 < 20 := by omega
    simp [h2]
  unfold OnBoardUnitManager.create_obu
  rw [if_neg hguard, hcond]
  by_cases h5 : ((n + 1) % 5 = 0)
  · have h5b : ((n + 1) % 5 == 0) = true := by simpa using h5
    rw [if_pos h5b]
    refine ⟨?_, ?_, ?_, ?_, ?_, ?_, ?_, ?_, ?_, ?_, ?_, ?_⟩ <;> dsimp only
    · rw [hnext]
    · rw [hnext]
    · simp [hlen]
    · rw [hadd]
      omega
    · exact hmax
    · exact hfa
    · exact htxB
    · exact htxF
    · exact hgpsB
    · exact hgpsF
    · rw [List.countP_append, hcount]
      simp only [List.countP_cons, List.countP_nil]
      simp
      omega
    · intro k o hko
      by_cases hk : k < m.obus.length
      · rw [List.get?_append hk] at hko
        exact hall k o hko
      · by_cases hk2 : k = n
        · subst hk2
          rw [show k = m.obus.length from by omega,
            List.get?_concat_length] at hko
          rw [Option.some_inj] at hko
          subst hko
          simp [htxF, hgpsF, h5, hnext, hlen]
        · exfalso
          obtain ⟨hklt, -⟩ := List.get?_eq_some.mp hko
          simp [hlen] at hklt
          rw [hlen] at hk
          omega
  · have h5b : ((n + 1) % 5 == 0) = false := by simpa using h5
    rw [h5b, if_neg (by simp)]
    refine ⟨?_, ?_, ?_, ?_, ?_, ?_, ?_, ?_, ?_, ?_, ?_, ?_⟩ <;> dsimp only
    · rw [hnext]
    · rw [hnext]
    · simp [hlen]
    · rw [hadd]
      omega
    · exact hmax
    · exact hfa
    · exact htxB
    · exact htxF
    · exact hgpsB
    · exact hgpsF
    · rw [List.countP_append, hcount]
      simp only [List.countP_cons, List.countP_nil]
      simp
      omega
    · intro k o hko
      by_cases hk : k < m.obus.length
      · rw [List.get?_append hk] at hko
        exact hall k o hko
      · by_cases hk2 : k = n
        · subst hk2
          rw [show k = m.obus.length from by omega,
            List.get?_concat_length] at hko
          rw [Option.some_inj] at hko
          subst hko
          simp [htxB, hgpsB, h5, hnext, hlen]
        · exfalso
          obtain ⟨hklt, -⟩ := List.get?_eq_some.mp hko
          simp [hlen] at hklt
          rw [hlen] at hk
          omega

theorem C7_run (txB txF gpsB gpsF : F32) (cs : List Coordinate) :
    ∀ (n : Nat) (m : OnBoardUnitManager), C7Inv txB txF gpsB gpsF n m →
      n + cs.length ≤ 100 →
      ((createMany m cs).1.all (fun r => r.isSome) = true ∧
       C7Inv txB txF gpsB gpsF (n + cs.length) (createMany m cs).2) := by
  induction cs with
  | nil =>
    intro n m h _
    simpa [createMany] using h
  | cons c cs ih =>
    intro n m hinv hle
    have hn : n < 100 := by
      simp only [List.length_cons] at hle
      omega
    obtain ⟨hres, hinv'⟩ := C7_step txB txF gpsB gpsF m n c hinv hn
    have hrest := ih (n + 1) (m.create_obu c).2 hinv'
      (by simp only [List.length_cons] at hle; omega)
    refine ⟨?_, ?_⟩
    · simp [createMany, hres, hrest.1]
    · have heq : n + (c :: cs).length = (n + 1) + cs.length := by
        simp only [List.length_cons]
        omega
      rw [show (createMany m (c :: cs)).2 =
        (createMany (m.create_obu c).2 cs).2 from rfl, heq]
      exact hrest.2

/-- C7: starting from a fresh manager with capacity 100 and target faulty
count 20, any sequence of 100 create_obu calls succeeds throughout, and
exactly the OBUs created 5th, 10th, ..., 100th (0-based index k with
(k+1) % 5 = 0) come out faulty, carrying the elevated transmission- and
GPS-failure rates; exactly 20 of the 100 OBUs are faulty, regardless of the
other parameters and of the coordinates used. -/
theorem C7_deterministic_fault_placement (p : ObuManagerParams) (dim : Nat)
    (cs : List Coordinate) (hmax : p.max_obus = 100)
    (hf : p.faulty_obus = 20) (hlen : cs.length = 100) :
    ((createMany (OnBoardUnitManager.new p dim) cs).1.all
      (fun r => r.isSome) = true) ∧
    (createMany (OnBoardUnitManager.new p dim) cs).2.obus.length = 100 ∧
    (∀ k o,
      (createMany (OnBoardUnitManager.new p dim) cs).2.obus.get? k =
        some o →
      ((o.is_faulty = true ↔ (k + 1) % 5 = 0) ∧
       o.tx_failure_rate = (if (k + 1) % 5 = 0
         then p.tx_faulty_obu_failure_rate else p.tx_base_failure_rate) ∧
       o.gps_failure_rate = (if (k + 1) % 5 = 0
         then p.gps_faulty_obu_failure_rate else p.gps_failure_rate))) ∧
    (createMany (OnBoardUnitManager.new p dim) cs).2.obus.countP
      (fun o => o.is_faulty) = 20 := by
  have hinv0 : C7Inv p.tx_base_failure_rate p.tx_faulty_obu_failure_rate
      p.gps_failure_rate p.gps_faulty_obu_failure_rate 0
      (OnBoardUnitManager.new p dim) := by
    refine ⟨rfl, rfl, rfl, hmax, hf, rfl, rfl, rfl, rfl, rfl, ?_⟩
    intro k o h
    simp [OnBoardUnitManager.new] at h
  obtain ⟨hall', hinv⟩ := C7_run p.tx_base_failure_rate
    p.tx_faulty_obu_failure_rate p.gps_failure_rate
    p.gps_faulty_obu_failure_rate cs 0 (OnBoardUnitManager.new p dim) hinv0
    (by omega)
  rw [hlen] at hinv
  obtain ⟨-, hlen', hadd', -, -, -, -, -, -, hcount', hforall⟩ := hinv
  refine ⟨hall', by simpa using hlen', ?_, by simpa using hcount'⟩
  intro k o hko
  obtain ⟨h1, h2, h3, -⟩ := hforall k o hko
  exact ⟨h1, h2, h3⟩

theorem C7_witness :
    ((createMany (OnBoardUnitManager.new c7params 10)
      (List.replicate 100 ⟨0, 0⟩)).1.all (fun r => r.isSome) = true) ∧
    (createMany (OnBoardUnitManager.new c7params 10)
      (List.replicate 100 ⟨0, 0⟩)).2.obus.length = 100 ∧
    (∀ k o,
      (createMany (OnBoardUnitManager.new c7params 10)
        (List.replicate 100 ⟨0, 0⟩)).2.obus.get? k = some o →
      ((o.is_faulty = true ↔ (k + 1) % 5 = 0) ∧
       o.tx_failure_rate = (if (k + 1) % 5 = 0
         then c7params.tx_faulty_obu_failure_rate
         else c7params.tx_base_failure_rate) ∧
       o.gps_failure_rate = (if (k + 1) % 5 = 0
         then c7params.gps_faulty_obu_failure_rate
         else c7params.gps_failure_rate))) ∧
    (createMany (OnBoardUnitManager.new c7params 10)
      (List.replicate 100 ⟨0, 0⟩)).2.obus.countP
      (fun o => o.is_faulty) = 20 :=
  C7_deterministic_fault_placement c7params 10 (List.replicate 100 ⟨0, 0⟩)
    rfl rfl (by simp)

theorem obu_get_message_origin (obu : OnBoardUnit) (t g : Bool)
    (sp : Coordinate) (msg : Message)
    (h : obu.get_message t g sp = some msg) :
    msg.origin_type = NodeType.OBU := by
  unfold OnBoardUnit.get_message at h
  split at h
  · exact Option.noConfusion h
  · rw [Option.some_inj] at h
    subst h
    rfl

theorem collectStep_origin (o : SimOracle)
    (acc : List Message × ObuManagerStats) (obu : OnBoardUnit)
    (hacc : ∀ msg ∈ acc.1, msg.origin_type = NodeType.OBU) :
    ∀ msg ∈ (collectStep o acc obu).1, msg.origin_type = NodeType.OBU := by
  intro msg hmsg
  unfold collectStep at hmsg
  rcases hg : obu.get_message (o.txFail obu.id) (o.gpsFail obu.id)
      (o.spoof obu.id) with - | m0
  · rw [hg] at hmsg
    exact hacc msg hmsg
  · rw [hg] at hmsg
    simp only [List.mem_append, List.mem_singleton] at hmsg
    rcases hmsg with hmem | rfl
    · exact hacc msg hmem
    · exact obu_get_message_origin obu _ _ _ msg hg

theorem collect_fold_origin (o : SimOracle) (l : List OnBoardUnit) :
    ∀ (acc : List Message × ObuManagerStats),
      (∀ msg ∈ acc.1, msg.origin_type = NodeType.OBU) →
      ∀ msg ∈ (l.foldl (collectStep o) acc).1,
        msg.origin_type = NodeType.OBU := by
  induction l with
  | nil => intro acc hacc; exact hacc
  | cons obu l ih =>
    intro acc hacc
    exact ih (collectStep o acc obu) (collectStep_origin o acc obu hacc)

theorem collect_ether_origin (s : Simulator) (o : SimOracle) :
    ∀ msg ∈ (s.collect_messages o).ether, msg.origin_type = NodeType.OBU := by
  intro msg hmsg
  unfold Simulator.collect_messages OnBoardUnitManager.collect_messages
    at hmsg
  simp only [List.mem_append] at hmsg
  rcases hmsg with h | h
  · obtain ⟨msg0, hmem, rfl⟩ := List.mem_map.mp h
    exact collect_fold_origin o s.obu_manager.obus ([], s.obu_manager.stats)
      (by intro x hx; simp at hx) msg0 hmem
  · exfalso
    obtain ⟨msg0, hmem0, -⟩ := List.mem_map.mp h
    obtain ⟨rsu, -, hg⟩ := List.mem_filterMap.mp hmem0
    simp [RoadSideUnit.get_message] at hg

theorem init_ether (s s' : Simulator) (h : Simulator.init s = some s') :
    s'.ether = s.ether := by
  unfold Simulator.init Simulator.add_road_side_units at h
  dsimp only at h
  split at h
  · simp at h
  · simp only [Option.bind_eq_bind, Option.some_bind, Option.some_inj] at h
    subst h
    rfl

theorem step_shape (s : Simulator) (o : SimOracle) (s' : Simulator)
    (h : s.step o = some s') :
    ∃ s1 : Simulator, s' = s1.collect_messages o := by
  unfold Simulator.step at h
  cases hd : s.deliver_phase with
  | none =>
    rw [hd] at h
    simp at h
  | some s1 =>
    rw [hd] at h
    simp only [Option.bind_eq_bind, Option.some_bind, Option.some_inj] at h
    exact ⟨_, h.symm⟩

/-- C10: RoadSideUnit::get_message always returns none, so in every
reachable simulation state every message in the Ether has OBU origin type —
RSUs never emit beacons even though the collection phase polls them. -/
theorem C10_rsus_never_emit (s : Simulator) (h : Reachable s) :
    (∀ r : RoadSideUnit, r.get_message = none) ∧
    ∀ msg ∈ s.ether, msg.origin_type = NodeType.OBU := by
  refine ⟨fun r => rfl, ?_⟩
  induction h with
  | new gp rp op =>
    intro msg hmsg
    simp [Simulator.new] at hmsg
  | init s s' hr hinit ih =>
    rw [init_ether s s' hinit]
    exact ih
  | collect0 s o hr hr0 ih => exact collect_ether_origin s o
  | step s o s' hr hstep ih =>
    obtain ⟨s1, rfl⟩ := step_shape s o s' hstep
    exact collect_ether_origin s1 o

theorem C10_witness :
    (∀ r : RoadSideUnit, r.get_message = none) ∧
    ∀ msg ∈ (Simulator.new ⟨3, 2⟩ ⟨3, 3, true, true⟩
        ⟨2, 2, F32.zero, F32.zero, F32.zero, F32.zero, 0⟩).ether,
      msg.origin_type = NodeType.OBU :=
  C10_rsus_never_emit
    (Simulator.new ⟨3, 2⟩ ⟨3, 3, true, true⟩
      ⟨2, 2, F32.zero, F32.zero, F32.zero, F32.zero, 0⟩)
    (Reachable.new ⟨3, 2⟩ ⟨3, 3, true, true⟩
      ⟨2, 2, F32.zero, F32.zero, F32.zero, F32.zero, 0⟩)
